import Mathlib

/-!
Verification development for the free-surface LBM core of this repository:
the streaming-with-interface-reconstruction step (`src/streaming.cpp`) and the
adaptive-timestep rescaling step (`src/timeStep.cpp`).

Embedding conventions.
The grid-indexing helpers, the lattice model (`LATTICEVELOCITIES`, `Q`,
`inverseVelocityIndex`, `C_S`), the local-moment computations
(`computeVelocity`, `computeFeq`, `computeStressTensor`,
`computeLocalRelaxationTime`) and the surface-normal estimation
(`computeSurfaceNormal`) are external collaborators of the core (spec section 6);
they enter the development as explicit function parameters.  Fields over the
grid are modelled as functions on integer coordinates (the composition of the
C++ flat arrays with the external `indexForCell`), and the per-iteration arrays
of the timestep adapter as a list of per-cell records.  `double` arithmetic is
embedded as exact rational arithmetic; `std::sqrt` is an external parameter
`sqrtFn` of the velocity-norm reduction.
-/

set_option maxRecDepth 8000

/-- Cell states, from `flag_t` (external `LBDefinitions.hpp`; spec section 3:
`FLUID`, `INTERFACE`, `EMPTY` and boundary kinds, the latter collapsed into one
representative constructor, as the two core files only ever compare a flag
against the first three). -/
inductive flag_t where
  | FLUID
  | INTERFACE
  | EMPTY
  | BOUNDARY
deriving DecidableEq

open flag_t

namespace Streaming

/-- A grid coordinate `(x, y, z)`. -/
abbrev Coord := ℤ × ℤ × ℤ

/-- Dot product of a surface normal with an integer lattice velocity
(`streaming.cpp` lines 55–57). -/
def dot3 (n : ℚ × ℚ × ℚ) (v : ℤ × ℤ × ℤ) : ℚ :=
  n.1 * (v.1 : ℚ) + n.2.1 * (v.2.1 : ℚ) + n.2.2 * (v.2.2 : ℚ)

/-- The upstream neighbour `cell - LATTICEVELOCITIES[i]` used by the pull-scheme
streaming step (`neighbouring_fi_cell_index`, `streaming.cpp` lines 6–12, with
the external flat-index mapping left off). -/
def neighbouring_fi_cell {Q : ℕ} (latticeVelocities : Fin Q → ℤ × ℤ × ℤ)
    (c : Coord) (i : Fin Q) : Coord :=
  c - latticeVelocities i

/-- The reconstruction trigger of the interface pass (`streaming.cpp` lines
47–59): direction `i` triggers when the cell adjacent in direction `i`
(`cell + LATTICEVELOCITIES[i]`, line 50) is `EMPTY`, or when the dot product of
the surface normal with `LATTICEVELOCITIES[i]` (the vector the source binds to
the name `invVelocity` on line 54) is strictly positive. -/
def reconTriggered {Q : ℕ} (latticeVelocities : Fin Q → ℤ × ℤ × ℤ)
    (flagField : Coord → flag_t) (normal : ℚ × ℚ × ℚ) (c : Coord) (i : Fin Q) : Bool :=
  decide (flagField (c + latticeVelocities i) = EMPTY) ||
    decide (0 < dot3 normal (latticeVelocities i))

/-- The reconstruction trigger as the spec's words state it: condition (b)
uses the velocity of the INVERSE direction, i.e. the negation of
`LATTICEVELOCITIES[i]`.  Second definition of the trigger kept for comparison
with `reconTriggered`, which is the one translated from the source. -/
def claimedTrigger {Q : ℕ} (latticeVelocities : Fin Q → ℤ × ℤ × ℤ)
    (flagField : Coord → flag_t) (normal : ℚ × ℚ × ℚ) (c : Coord) (i : Fin Q) : Bool :=
  decide (flagField (c + latticeVelocities i) = EMPTY) ||
    decide (0 < dot3 normal (-(latticeVelocities i)))

/-- The value written by interface reconstruction for trigger direction `i`
(`streaming.cpp` lines 62–74): equilibrium at atmospheric reference pressure
(density `1.0`) and the macroscopic velocity of the collide field at the
previous step's density, combined as `feq[inv] + feq[i] - collide[i]`. -/
def reconstructedValue {Q : ℕ}
    (inverseVelocityIndex : Fin Q → Fin Q)
    (computeVelocity : (Fin Q → ℚ) → ℚ → ℚ × ℚ × ℚ)
    (computeFeq : ℚ → ℚ × ℚ × ℚ → Fin Q → ℚ)
    (collide : Coord → Fin Q → ℚ) (densityField : Coord → ℚ)
    (c : Coord) (i : Fin Q) : ℚ :=
  let curDensity := densityField c
  let velocity := computeVelocity (fun j => collide c j) curDensity
  let feq := computeFeq 1 velocity
  feq (inverseVelocityIndex i) + feq i - collide c i

/-- One generic pass of the reconstruction loop: fold over the direction list,
overwriting slot `g i` with `val i` whenever `trig i` fires (the body of the
loop on `streaming.cpp` lines 47–76). -/
def reconFold {Q : ℕ} (trig : Fin Q → Bool) (g : Fin Q → Fin Q) (val : Fin Q → ℚ)
    (l : List (Fin Q)) (f0 : Fin Q → ℚ) : Fin Q → ℚ :=
  l.foldl (fun f i => if trig i then Function.update f (g i) (val i) else f) f0

/-- The trigger of the interface pass with the surface normal filled in from
the external `computeSurfaceNormal` (`streaming.cpp` lines 43–45: the normal is
estimated from the collide field and the previous step's densities). -/
def cellTrigger {Q : ℕ} (latticeVelocities : Fin Q → ℤ × ℤ × ℤ)
    (computeSurfaceNormal :
      (Coord → Fin Q → ℚ) → (Coord → ℚ) → (Coord → flag_t) → (Coord → ℚ) → Coord → ℚ × ℚ × ℚ)
    (collide : Coord → Fin Q → ℚ) (densityField : Coord → ℚ)
    (flagField : Coord → flag_t) (massField : Coord → ℚ)
    (c : Coord) (i : Fin Q) : Bool :=
  reconTriggered latticeVelocities flagField
    (computeSurfaceNormal collide densityField flagField massField c) c i

/-- The spec-side trigger with the surface normal filled in; compare
`cellTrigger`. -/
def claimedCellTrigger {Q : ℕ} (latticeVelocities : Fin Q → ℤ × ℤ × ℤ)
    (computeSurfaceNormal :
      (Coord → Fin Q → ℚ) → (Coord → ℚ) → (Coord → flag_t) → (Coord → ℚ) → Coord → ℚ × ℚ × ℚ)
    (collide : Coord → Fin Q → ℚ) (densityField : Coord → ℚ)
    (flagField : Coord → flag_t) (massField : Coord → ℚ)
    (c : Coord) (i : Fin Q) : Bool :=
  claimedTrigger latticeVelocities flagField
    (computeSurfaceNormal collide densityField flagField massField c) c i

/-- The second (interface) pass of `doStreaming` (`streaming.cpp` lines 34–77):
for each direction `i` in loop order, if the trigger fires, overwrite slot
`inverseVelocityIndex i` of this cell's distributions with the reconstructed
value. -/
def interfaceReconLoop {Q : ℕ} (latticeVelocities : Fin Q → ℤ × ℤ × ℤ)
    (inverseVelocityIndex : Fin Q → Fin Q)
    (computeVelocity : (Fin Q → ℚ) → ℚ → ℚ × ℚ × ℚ)
    (computeFeq : ℚ → ℚ × ℚ × ℚ → Fin Q → ℚ)
    (computeSurfaceNormal :
      (Coord → Fin Q → ℚ) → (Coord → ℚ) → (Coord → flag_t) → (Coord → ℚ) → Coord → ℚ × ℚ × ℚ)
    (collide : Coord → Fin Q → ℚ) (densityField : Coord → ℚ)
    (flagField : Coord → flag_t) (massField : Coord → ℚ)
    (c : Coord) (f0 : Fin Q → ℚ) : Fin Q → ℚ :=
  reconFold
    (fun i => cellTrigger latticeVelocities computeSurfaceNormal collide densityField
      flagField massField c i)
    inverseVelocityIndex
    (fun i => reconstructedValue inverseVelocityIndex computeVelocity computeFeq
      collide densityField c i)
    (List.finRange Q) f0

/-- The streaming step (`doStreaming`, `streaming.cpp` lines 14–81), per cell:
FLUID and INTERFACE cells pull each direction `i` from the upstream neighbour
`cell - LATTICEVELOCITIES[i]`; INTERFACE cells then run the reconstruction
pass; all other cells keep the previous content of the stream field (they are
left for external logic to fill). -/
def doStreaming {Q : ℕ} (latticeVelocities : Fin Q → ℤ × ℤ × ℤ)
    (inverseVelocityIndex : Fin Q → Fin Q)
    (computeVelocity : (Fin Q → ℚ) → ℚ → ℚ × ℚ × ℚ)
    (computeFeq : ℚ → ℚ × ℚ × ℚ → Fin Q → ℚ)
    (computeSurfaceNormal :
      (Coord → Fin Q → ℚ) → (Coord → ℚ) → (Coord → flag_t) → (Coord → ℚ) → Coord → ℚ × ℚ × ℚ)
    (collide streamField0 : Coord → Fin Q → ℚ)
    (massField densityField : Coord → ℚ) (flagField : Coord → flag_t) :
    Coord → Fin Q → ℚ :=
  fun c =>
    if flagField c = FLUID ∨ flagField c = INTERFACE then
      let streamed : Fin Q → ℚ :=
        fun i => collide (neighbouring_fi_cell latticeVelocities c i) i
      if flagField c = INTERFACE then
        interfaceReconLoop latticeVelocities inverseVelocityIndex computeVelocity
          computeFeq computeSurfaceNormal collide densityField flagField massField
          c streamed
      else streamed
    else streamField0 c

/-- The per-cell non-negativity assertion of the streaming pass
(`streaming.cpp` lines 24–31): for a FLUID or INTERFACE cell the `assert` on
line 30 checks every direction's just-streamed value, i.e. every
`collideField[neighbour][i]`, regardless of whether the interface pass later
overwrites that slot. -/
def streamingAssertHolds {Q : ℕ} (latticeVelocities : Fin Q → ℤ × ℤ × ℤ)
    (flagField : Coord → flag_t) (collide : Coord → Fin Q → ℚ) (c : Coord) : Prop :=
  (flagField c = FLUID ∨ flagField c = INTERFACE) →
    ∀ i : Fin Q, 0 ≤ collide (neighbouring_fi_cell latticeVelocities c i) i

/-- The assertion coverage as the claim states it: FLUID cells are checked in
every direction, INTERFACE cells only in directions that reconstruction does
not overwrite (slot `i` is overwritten when the trigger fires for
`inverseVelocityIndex i`).  Second definition kept for comparison with
`streamingAssertHolds`, which is the one translated from the source. -/
def claimedAssertHolds {Q : ℕ} (latticeVelocities : Fin Q → ℤ × ℤ × ℤ)
    (inverseVelocityIndex : Fin Q → Fin Q)
    (computeSurfaceNormal :
      (Coord → Fin Q → ℚ) → (Coord → ℚ) → (Coord → flag_t) → (Coord → ℚ) → Coord → ℚ × ℚ × ℚ)
    (collide : Coord → Fin Q → ℚ) (densityField : Coord → ℚ)
    (flagField : Coord → flag_t) (massField : Coord → ℚ) (c : Coord) : Prop :=
  (flagField c = FLUID →
    ∀ i : Fin Q, 0 ≤ collide (neighbouring_fi_cell latticeVelocities c i) i) ∧
  (flagField c = INTERFACE →
    ∀ i : Fin Q,
      cellTrigger latticeVelocities computeSurfaceNormal collide densityField
        flagField massField c (inverseVelocityIndex i) = false →
      0 ≤ collide (neighbouring_fi_cell latticeVelocities c i) i)

/-! Concrete instantiation of the external collaborators, used to evaluate the
streaming step on explicit inputs: a two-direction lattice
`velD 0 = (1,0,0)`, `velD 1 = (-1,0,0)` with `invD` the inverse-direction
lookup (`invD i` is the exact negation of direction `i`, as the spec's lattice
contract requires), an INTERFACE cell at the origin inside FLUID, a constant
surface normal `(1,0,0)`, and constant moment functions. -/

/-- Two-direction lattice velocities. -/
def velD : Fin 2 → ℤ × ℤ × ℤ := fun i => if i = 0 then (1, 0, 0) else (-1, 0, 0)

/-- Inverse-direction lookup for `velD`. -/
def invD : Fin 2 → Fin 2 := fun i => if i = 0 then 1 else 0

/-- Flags: INTERFACE at the origin, FLUID elsewhere. -/
def flagD : Coord → flag_t := fun c => if c = ((0 : ℤ), (0 : ℤ), (0 : ℤ)) then INTERFACE else FLUID

/-- Constant macroscopic velocity. -/
def cvD : (Fin 2 → ℚ) → ℚ → ℚ × ℚ × ℚ := fun _ _ => (0, 0, 0)

/-- Constant zero equilibrium distribution. -/
def feqD : ℚ → ℚ × ℚ × ℚ → Fin 2 → ℚ := fun _ _ _ => 0

/-- Constant surface normal `(1,0,0)`. -/
def csnD : (Coord → Fin 2 → ℚ) → (Coord → ℚ) → (Coord → flag_t) → (Coord → ℚ) →
    Coord → ℚ × ℚ × ℚ := fun _ _ _ _ _ => (1, 0, 0)

/-- Collide field with all distributions `1`. -/
def collideD : Coord → Fin 2 → ℚ := fun _ _ => 1

/-- Collide field that streams the value `-1` into direction `1` of the origin
cell (the entry at cell `(1,0,0)`, direction `1`) and `1` everywhere else. -/
def collideD8 : Coord → Fin 2 → ℚ :=
  fun c i => if c = ((1 : ℤ), (0 : ℤ), (0 : ℤ)) ∧ i = 1 then -1 else 1

/-- Constant scalar field `1` (used for mass and density). -/
def oneFieldD : Coord → ℚ := fun _ => 1

/-- Zero previous stream field. -/
def zeroDistD : Coord → Fin 2 → ℚ := fun _ _ => 0

end Streaming

namespace TimeStepAdapter

/-- The per-cell state handed to `adaptTimestep` (`timeStep.cpp` lines 4–9):
the parallel arrays `flags`, `density`, `mass` and the `Q` distribution slots
of `distributions`, gathered per index into one record. -/
structure LBCell (Q : ℕ) where
  flag : flag_t
  density : ℚ
  mass : ℚ
  dist : Fin Q → ℚ

/-- Squared Euclidean norm of a velocity, the argument of `std::sqrt` on
`timeStep.cpp` lines 22–23. -/
def velNormSq (v : ℚ × ℚ × ℚ) : ℚ :=
  v.1 * v.1 + v.2.1 * v.2.1 + v.2.2 * v.2.2

/-- The max-velocity reduction (`timeStep.cpp` lines 11–25): over FLUID and
INTERFACE cells, the maximum of `sqrt` of the squared norm of the macroscopic
velocity, starting from `0.0`. -/
def maximumVelocityNorm {Q : ℕ}
    (computeVelocity : (Fin Q → ℚ) → ℚ → ℚ × ℚ × ℚ) (sqrtFn : ℚ → ℚ)
    (cells : List (LBCell Q)) : ℚ :=
  cells.foldl
    (fun m c =>
      if c.flag = FLUID ∨ c.flag = INTERFACE then
        max m (sqrtFn (velNormSq (computeVelocity c.dist c.density)))
      else m)
    0

/-- `criticalVelocity = 0.5 * C_S * C_S` (`timeStep.cpp` line 27). -/
def criticalVelocity (cs : ℚ) : ℚ := 1 / 2 * cs * cs

/-- The safety factor `multiplier = 4.0 / 5.0` (`timeStep.cpp` line 28). -/
def multiplier : ℚ := 4 / 5

/-- `upperLimit = criticalVelocity / multiplier` (`timeStep.cpp` line 29). -/
def upperLimit (cs : ℚ) : ℚ := criticalVelocity cs / multiplier

/-- `lowerLimit = criticalVelocity * multiplier` (`timeStep.cpp` line 30). -/
def lowerLimit (cs : ℚ) : ℚ := criticalVelocity cs * multiplier

/-- The decision step of `adaptTimestep` (`timeStep.cpp` lines 32–42): shrink
the time step when the maximum velocity norm exceeds `upperLimit`, grow it when
the norm is below `lowerLimit` and an increase is allowed, otherwise keep it
(`none` stands for the early return on line 41). -/
def candidateTimeStep (cs maxVelocityNorm oldTimeStep : ℚ) (allowIncrease : Bool) :
    Option ℚ :=
  if maxVelocityNorm > upperLimit cs then some (oldTimeStep * multiplier)
  else if maxVelocityNorm < lowerLimit cs ∧ allowIncrease = true then
    some (oldTimeStep / multiplier)
  else none

/-- The stability floor (`timeStep.cpp` lines 45–52): `0.5` under the
Smagorinsky turbulence model, else `1.0 / 1.99`. -/
def minimumTau (smagorinskyConstant : ℚ) : ℚ :=
  if smagorinskyConstant > 0 then 1 / 2 else 1 / (199 / 100)

/-- The fluid-volume reduction (`timeStep.cpp` lines 64–75): FLUID cells count
one unit, INTERFACE cells `mass / density` units. -/
def totalFluidVolume {Q : ℕ} (cells : List (LBCell Q)) : ℚ :=
  cells.foldl
    (fun acc c =>
      if c.flag = FLUID then acc + 1
      else if c.flag = INTERFACE then acc + c.mass / c.density
      else acc)
    0

/-- The mass reduction (`timeStep.cpp` lines 64–75): FLUID cells contribute
their density, INTERFACE cells their tracked mass. -/
def totalMass {Q : ℕ} (cells : List (LBCell Q)) : ℚ :=
  cells.foldl
    (fun acc c =>
      if c.flag = FLUID then acc + c.density
      else if c.flag = INTERFACE then acc + c.mass
      else acc)
    0

/-- The per-cell rescale of `adaptTimestep` (`timeStep.cpp` lines 84–131):
skip non-FLUID/INTERFACE cells; move the density toward `medianDensity` by the
time-step ratio (the local `timeFactor` embeds the source's `timeRatio`), scale
the velocity by the ratio, rescale each distribution's off-equilibrium part by
`tauFactor` (the source's `tauRatio`) and its equilibrium part by the ratio of
new to old equilibrium (`feqRatio`, line 120), rescale an INTERFACE cell's mass
by `oldDensity / newDensity` (line 128), and write the new density. -/
def rescaleCell {Q : ℕ}
    (computeVelocity : (Fin Q → ℚ) → ℚ → ℚ × ℚ × ℚ)
    (computeFeq : ℚ → ℚ × ℚ × ℚ → Fin Q → ℚ)
    (computeStressTensor : (Fin Q → ℚ) → (Fin Q → ℚ) → ℚ)
    (computeLocalRelaxationTime : ℚ → ℚ → ℚ → ℚ)
    (timeFactor medianDensity newTau oldTau smagorinskyConstant : ℚ)
    (c : LBCell Q) : LBCell Q :=
  if c.flag = FLUID ∨ c.flag = INTERFACE then
    let oldDensity := c.density
    let newDensity := timeFactor * (c.density - medianDensity) + medianDensity
    let oldVelocity := computeVelocity c.dist c.density
    let newVelocity : ℚ × ℚ × ℚ :=
      (oldVelocity.1 * timeFactor, oldVelocity.2.1 * timeFactor,
        oldVelocity.2.2 * timeFactor)
    let oldFeq := computeFeq oldDensity oldVelocity
    let newFeq := computeFeq newDensity newVelocity
    let tauFactor :=
      if smagorinskyConstant > 0 then
        timeFactor *
          (computeLocalRelaxationTime newTau (computeStressTensor c.dist newFeq)
              smagorinskyConstant /
            computeLocalRelaxationTime oldTau (computeStressTensor c.dist oldFeq)
              smagorinskyConstant)
      else timeFactor * (newTau / oldTau)
    ⟨c.flag, newDensity,
      if c.flag = INTERFACE then c.mass * (oldDensity / newDensity) else c.mass,
      fun j => newFeq j / oldFeq j * (oldFeq j + tauFactor * (c.dist j - oldFeq j))⟩
  else c

/-- The timestep adapter (`adaptTimestep`, `timeStep.cpp` lines 4–134).
Returns the new `(tau, timeStep)` pair together with the (possibly rescaled)
cells and gravitation vector.  The early returns on lines 41 and 56 hand back
the old pair with every field untouched; otherwise gravitation is scaled by the
squared time ratio, `medianDensity = totalFluidVolume / totalMass` is computed
(line 76), and every cell is rescaled. -/
def adaptTimestep {Q : ℕ}
    (computeVelocity : (Fin Q → ℚ) → ℚ → ℚ × ℚ × ℚ) (sqrtFn : ℚ → ℚ) (cs : ℚ)
    (computeFeq : ℚ → ℚ × ℚ × ℚ → Fin Q → ℚ)
    (computeStressTensor : (Fin Q → ℚ) → (Fin Q → ℚ) → ℚ)
    (computeLocalRelaxationTime : ℚ → ℚ → ℚ → ℚ)
    (cells : List (LBCell Q)) (gravitation : ℚ × ℚ × ℚ)
    (oldTimeStep oldTau smagorinskyConstant : ℚ) (allowIncrease : Bool) :
    (ℚ × ℚ) × List (LBCell Q) × (ℚ × ℚ × ℚ) :=
  match candidateTimeStep cs (maximumVelocityNorm computeVelocity sqrtFn cells)
      oldTimeStep allowIncrease with
  | none => ((oldTau, oldTimeStep), cells, gravitation)
  | some newTimeStep =>
    let timeFactor := newTimeStep / oldTimeStep
    let newTau := timeFactor * (oldTau - 1 / 2) + 1 / 2
    if newTau ≤ minimumTau smagorinskyConstant then
      ((oldTau, oldTimeStep), cells, gravitation)
    else
      let newGravitation : ℚ × ℚ × ℚ :=
        (gravitation.1 * (timeFactor * timeFactor),
          gravitation.2.1 * (timeFactor * timeFactor),
          gravitation.2.2 * (timeFactor * timeFactor))
      let medianDensity := totalFluidVolume cells / totalMass cells
      ((newTau, newTimeStep),
        cells.map
          (rescaleCell computeVelocity computeFeq computeStressTensor
            computeLocalRelaxationTime timeFactor medianDensity newTau oldTau
            smagorinskyConstant),
        newGravitation)

/-! Concrete instantiation of the external collaborators of the timestep
adapter, used to evaluate it on explicit inputs: a one-direction lattice with
constant moment functions, `sqrt` instantiated as the identity (only ever
applied to `0` or used monotonically here), and `C_S = 1`. -/

/-- Constant zero macroscopic velocity. -/
def cv1 : (Fin 1 → ℚ) → ℚ → ℚ × ℚ × ℚ := fun _ _ => (0, 0, 0)

/-- Macroscopic velocity `(1/2, 0, 0)` for every cell. -/
def cvMid : (Fin 1 → ℚ) → ℚ → ℚ × ℚ × ℚ := fun _ _ => (1 / 2, 0, 0)

/-- `sqrt` instantiated as the identity. -/
def sqrtId : ℚ → ℚ := id

/-- Constant equilibrium distribution `1`. -/
def feqOne : ℚ → ℚ × ℚ × ℚ → Fin 1 → ℚ := fun _ _ _ => 1

/-- Equilibrium distribution equal to the density (zero at density zero, as
the physical `feq = w·ρ·(…)` is). -/
def feqDensity : ℚ → ℚ × ℚ × ℚ → Fin 1 → ℚ := fun d _ _ => d

/-- Constant zero stress. -/
def cstZero : (Fin 1 → ℚ) → (Fin 1 → ℚ) → ℚ := fun _ _ => 0

/-- Local relaxation time equal to the global one. -/
def clrtId : ℚ → ℚ → ℚ → ℚ := fun t _ _ => t

/-- No cells at all. -/
def emptyCells : List (LBCell 1) := []

/-- A single FLUID cell of density `2`. -/
def fluidCells2 : List (LBCell 1) := [⟨FLUID, 2, 0, fun _ => 1⟩]

/-- A single FLUID cell of density `1` (its velocity under `cvMid` has norm
`1/4`, inside the stability band for `C_S = 1` when growth is disallowed). -/
def bandCells : List (LBCell 1) := [⟨FLUID, 1, 0, fun _ => 1⟩]

/-- A single non-FLUID, non-INTERFACE cell. -/
def noFluidCells : List (LBCell 1) := [⟨EMPTY, 1, 0, fun _ => 0⟩]

/-- An INTERFACE cell of density `2` and mass `1`. -/
def interCell : LBCell 1 := ⟨INTERFACE, 2, 1, fun _ => 1⟩

/-- A FLUID cell of density `0` — the nonphysical input on which the
equilibrium distribution `feqDensity` vanishes. -/
def zeroDensityCell : LBCell 1 := ⟨FLUID, 0, 0, fun _ => 1⟩

end TimeStepAdapter

namespace Streaming

section
variable {Q : ℕ} (latticeVelocities : Fin Q → ℤ × ℤ × ℤ)
  (inverseVelocityIndex : Fin Q → Fin Q)
  (computeVelocity : (Fin Q → ℚ) → ℚ → ℚ × ℚ × ℚ)
  (computeFeq : ℚ → ℚ × ℚ × ℚ → Fin Q → ℚ)
  (computeSurfaceNormal :
    (Coord → Fin Q → ℚ) → (Coord → ℚ) → (Coord → flag_t) → (Coord → ℚ) → Coord → ℚ × ℚ × ℚ)
  (collide streamField0 : Coord → Fin Q → ℚ)
  (massField densityField : Coord → ℚ) (flagField : Coord → flag_t)

/-- A slot that no direction of the list maps to is left unchanged by the
reconstruction fold. -/
theorem reconFold_apply_of_forall_ne (trig : Fin Q → Bool) (g : Fin Q → Fin Q)
    (val : Fin Q → ℚ) (l : List (Fin Q)) (f0 : Fin Q → ℚ) (j : Fin Q)
    (h : ∀ i ∈ l, g i ≠ j) : reconFold trig g val l f0 j = f0 j := by
  revert h
  induction l generalizing f0 with
  | nil => intro _; rfl
  | cons a t ih =>
    intro h
    have ha : g a ≠ j := h a (List.mem_cons_self a t)
    have ht : ∀ i ∈ t, g i ≠ j := fun i hi => h i (List.mem_cons_of_mem a hi)
    show reconFold trig g val t
      (if trig a then Function.update f0 (g a) (val a) else f0) j = f0 j
    rw [ih _ ht]
    by_cases hta : trig a = true
    · simp [hta, Function.update_noteq (Ne.symm ha)]
    · simp [hta]

/-- When `g` is injective and the direction list has no duplicates, the slot
`g i₀` of the reconstruction fold is decided by the trigger of `i₀` alone. -/
theorem reconFold_apply_of_mem (trig : Fin Q → Bool) (g : Fin Q → Fin Q)
    (val : Fin Q → ℚ) (l : List (Fin Q)) (f0 : Fin Q → ℚ) (j i₀ : Fin Q)
    (hg : Function.Injective g) (hnd : l.Nodup) (hmem : i₀ ∈ l) (hj : g i₀ = j) :
    reconFold trig g val l f0 j = if trig i₀ then val i₀ else f0 j := by
  revert hnd hmem
  induction l generalizing f0 with
  | nil => intro _ hmem; exact absurd hmem (List.not_mem_nil i₀)
  | cons a t ih =>
    intro hnd hmem
    rcases List.mem_cons.mp hmem with heq | hmem'
    · subst heq
      have hnotin : ∀ i ∈ t, g i ≠ j := by
        intro i hi hgi
        have hii : i = i₀ := hg (hgi.trans hj.symm)
        subst hii
        exact (List.nodup_cons.mp hnd).1 hi
      show reconFold trig g val t
        (if trig i₀ then Function.update f0 (g i₀) (val i₀) else f0) j = _
      rw [reconFold_apply_of_forall_ne trig g val t _ j hnotin]
      by_cases hta : trig i₀ = true
      · simp only [if_pos hta]
        subst hj
        exact Function.update_same _ _ _
      · simp only [if_neg hta]
    · have ha : a ≠ i₀ := by
        rintro rfl
        exact (List.nodup_cons.mp hnd).1 hmem'
      have hga : g a ≠ j := fun hcontra => ha (hg (hcontra.trans hj.symm))
      have hstep : (if trig a then Function.update f0 (g a) (val a) else f0) j = f0 j := by
        by_cases hta : trig a = true
        · simp [hta, Function.update_noteq (Ne.symm hga)]
        · simp [hta]
      show reconFold trig g val t
        (if trig a then Function.update f0 (g a) (val a) else f0) j = _
      rw [ih _ (List.nodup_cons.mp hnd).2 hmem', hstep]

/-- Slot `j` after the interface pass: reconstructed from direction
`inverseVelocityIndex j` when that direction's trigger fires, otherwise the
base value. -/
theorem interfaceReconLoop_apply (c : Coord) (f0 : Fin Q → ℚ) (j : Fin Q)
    (hinv : ∀ k, inverseVelocityIndex (inverseVelocityIndex k) = k) :
    interfaceReconLoop latticeVelocities inverseVelocityIndex computeVelocity
        computeFeq computeSurfaceNormal collide densityField flagField massField
        c f0 j =
      if cellTrigger latticeVelocities computeSurfaceNormal collide densityField
          flagField massField c (inverseVelocityIndex j) = true then
        reconstructedValue inverseVelocityIndex computeVelocity computeFeq collide
          densityField c (inverseVelocityIndex j)
      else f0 j := by
  have hginj : Function.Injective inverseVelocityIndex := by
    intro a b hab
    rw [← hinv a, hab, hinv b]
  exact reconFold_apply_of_mem _ _ _ _ f0 j (inverseVelocityIndex j) hginj
    (List.nodup_finRange Q) (List.mem_finRange _) (hinv j)

/-- The streamed output of an INTERFACE cell at slot `j`. -/
theorem doStreaming_interface_apply (c : Coord) (j : Fin Q)
    (hinv : ∀ k, inverseVelocityIndex (inverseVelocityIndex k) = k)
    (hflag : flagField c = INTERFACE) :
    doStreaming latticeVelocities inverseVelocityIndex computeVelocity computeFeq
        computeSurfaceNormal collide streamField0 massField densityField flagField
        c j =
      if cellTrigger latticeVelocities computeSurfaceNormal collide densityField
          flagField massField c (inverseVelocityIndex j) = true then
        reconstructedValue inverseVelocityIndex computeVelocity computeFeq collide
          densityField c (inverseVelocityIndex j)
      else collide (neighbouring_fi_cell latticeVelocities c j) j := by
  have hor : flagField c = FLUID ∨ flagField c = INTERFACE := Or.inr hflag
  unfold doStreaming
  simp only [if_pos hor, if_pos hflag]
  exact interfaceReconLoop_apply latticeVelocities inverseVelocityIndex
    computeVelocity computeFeq computeSurfaceNormal collide massField densityField
    flagField c _ j hinv

/-- The streamed output of a FLUID or INTERFACE cell at a slot the interface
pass does not overwrite. -/
theorem doStreaming_apply_not_recon (c : Coord) (i : Fin Q)
    (hinv : ∀ k, inverseVelocityIndex (inverseVelocityIndex k) = k)
    (hflag : flagField c = FLUID ∨ flagField c = INTERFACE)
    (hnr : flagField c = INTERFACE →
      cellTrigger latticeVelocities computeSurfaceNormal collide densityField
        flagField massField c (inverseVelocityIndex i) = false) :
    doStreaming latticeVelocities inverseVelocityIndex computeVelocity computeFeq
        computeSurfaceNormal collide streamField0 massField densityField flagField
        c i =
      collide (neighbouring_fi_cell latticeVelocities c i) i := by
  rcases hflag with hf | hf
  · have hor : flagField c = FLUID ∨ flagField c = INTERFACE := Or.inl hf
    have hni : ¬ flagField c = INTERFACE := by
      rw [hf]
      intro h
      exact absurd h (by decide)
    unfold doStreaming
    simp only [if_pos hor, if_neg hni]
  · rw [doStreaming_interface_apply latticeVelocities inverseVelocityIndex
      computeVelocity computeFeq computeSurfaceNormal collide streamField0
      massField densityField flagField c i hinv hf, hnr hf]
    simp

end

end Streaming

namespace Streaming

section
variable {Q : ℕ} (latticeVelocities : Fin Q → ℤ × ℤ × ℤ)
  (inverseVelocityIndex : Fin Q → Fin Q)
  (computeVelocity : (Fin Q → ℚ) → ℚ → ℚ × ℚ × ℚ)
  (computeFeq : ℚ → ℚ × ℚ × ℚ → Fin Q → ℚ)
  (computeSurfaceNormal :
    (Coord → Fin Q → ℚ) → (Coord → ℚ) → (Coord → flag_t) → (Coord → ℚ) → Coord → ℚ × ℚ × ℚ)
  (collide streamField0 : Coord → Fin Q → ℚ)
  (massField densityField : Coord → ℚ) (flagField : Coord → flag_t)

/-- C1 (amended): in `doStreaming`, for every INTERFACE cell and every lattice
direction `i`, the distribution slot of the inverse direction
`inverseVelocityIndex i` holds the reconstructed value precisely when (a) the
cell adjacent in direction `i` is EMPTY, or (b) `velocity[i]` ITSELF — not its
negation — has a strictly positive dot product with the surface normal at the
cell (`cellTrigger`); otherwise the slot holds the plainly streamed upstream
value. -/
theorem doStreaming_interface_reconstruction_rule (c : Coord) (i : Fin Q)
    (hinv : ∀ k, inverseVelocityIndex (inverseVelocityIndex k) = k)
    (hflag : flagField c = INTERFACE) :
    doStreaming latticeVelocities inverseVelocityIndex computeVelocity computeFeq
        computeSurfaceNormal collide streamField0 massField densityField flagField
        c (inverseVelocityIndex i) =
      if cellTrigger latticeVelocities computeSurfaceNormal collide densityField
          flagField massField c i = true then
        reconstructedValue inverseVelocityIndex computeVelocity computeFeq collide
          densityField c i
      else
        collide (neighbouring_fi_cell latticeVelocities c (inverseVelocityIndex i))
          (inverseVelocityIndex i) := by
  rw [doStreaming_interface_apply latticeVelocities inverseVelocityIndex
    computeVelocity computeFeq computeSurfaceNormal collide streamField0 massField
    densityField flagField c (inverseVelocityIndex i) hinv hflag, hinv i]

/-- C6: for a FLUID cell in every direction, and for an INTERFACE cell in every
direction whose slot the reconstruction pass does not overwrite, `doStreaming`
writes exactly the upstream neighbour's pre-streaming value
`collide[cell - velocity[i]][i]` — pure data motion, no arithmetic. -/
theorem doStreaming_pure_data_motion (c : Coord) (i : Fin Q)
    (hinv : ∀ k, inverseVelocityIndex (inverseVelocityIndex k) = k)
    (hflag : flagField c = FLUID ∨ flagField c = INTERFACE)
    (hnr : flagField c = INTERFACE →
      cellTrigger latticeVelocities computeSurfaceNormal collide densityField
        flagField massField c (inverseVelocityIndex i) = false) :
    doStreaming latticeVelocities inverseVelocityIndex computeVelocity computeFeq
        computeSurfaceNormal collide streamField0 massField densityField flagField
        c i =
      collide (neighbouring_fi_cell latticeVelocities c i) i :=
  doStreaming_apply_not_recon latticeVelocities inverseVelocityIndex
    computeVelocity computeFeq computeSurfaceNormal collide streamField0 massField
    densityField flagField c i hinv hflag hnr

/-- C7: for an INTERFACE cell and a direction `i` that triggers reconstruction,
`doStreaming` writes into the slot of the inverse direction the value
`feq[inverse] + feq[i] - collide[i]`, with the equilibrium taken at density
`1.0` (atmospheric reference pressure) and at the macroscopic velocity computed
from the pre-streaming (collide) field and the previous step's density at the
cell. -/
theorem doStreaming_reconstruction_balance (c : Coord) (i : Fin Q)
    (hinv : ∀ k, inverseVelocityIndex (inverseVelocityIndex k) = k)
    (hflag : flagField c = INTERFACE)
    (htrig : cellTrigger latticeVelocities computeSurfaceNormal collide
      densityField flagField massField c i = true) :
    doStreaming latticeVelocities inverseVelocityIndex computeVelocity computeFeq
        computeSurfaceNormal collide streamField0 massField densityField flagField
        c (inverseVelocityIndex i) =
      computeFeq 1 (computeVelocity (fun j => collide c j) (densityField c))
          (inverseVelocityIndex i) +
        computeFeq 1 (computeVelocity (fun j => collide c j) (densityField c)) i -
        collide c i := by
  rw [doStreaming_interface_apply latticeVelocities inverseVelocityIndex
    computeVelocity computeFeq computeSurfaceNormal collide streamField0 massField
    densityField flagField c (inverseVelocityIndex i) hinv hflag, hinv i,
    if_pos htrig]
  simp only [reconstructedValue]

/-- C8 (amended): the streaming pass asserts non-negativity of every streamed
value of every FLUID or INTERFACE cell — including values of directions the
reconstruction pass later overwrites — and reconstructed values themselves are
never checked; consequently, when the per-cell assert holds, every direction of
a FLUID cell and every non-reconstructed direction of an INTERFACE cell carries
a non-negative value in the streamed output. -/
theorem doStreaming_nonneg_of_assert (c : Coord) (i : Fin Q)
    (hinv : ∀ k, inverseVelocityIndex (inverseVelocityIndex k) = k)
    (hA : streamingAssertHolds latticeVelocities flagField collide c)
    (hflag : flagField c = FLUID ∨ flagField c = INTERFACE)
    (hnr : flagField c = INTERFACE →
      cellTrigger latticeVelocities computeSurfaceNormal collide densityField
        flagField massField c (inverseVelocityIndex i) = false) :
    0 ≤ doStreaming latticeVelocities inverseVelocityIndex computeVelocity
        computeFeq computeSurfaceNormal collide streamField0 massField
        densityField flagField c i := by
  rw [doStreaming_apply_not_recon latticeVelocities inverseVelocityIndex
    computeVelocity computeFeq computeSurfaceNormal collide streamField0 massField
    densityField flagField c i hinv hflag hnr]
  exact hA hflag i

end

/-- C1 counterexample: in the concrete two-direction model, at the INTERFACE
origin cell and direction `i = 0`, the claim's own condition is false — the
adjacent cell is FLUID, and the inverse direction's velocity `-velD 0` has dot
product `-1` with the normal — yet the code reconstructs the slot of the
inverse direction `invD 0 = 1`: the streamed output there is the reconstructed
value `-1`, where plain streaming would have written `1`.  The source compares
the normal against `LATTICEVELOCITIES[i]` itself (`streaming.cpp` line 54),
not against the inverse direction's velocity. -/
theorem doStreaming_claimed_trigger_cex :
    claimedCellTrigger velD csnD collideD oneFieldD flagD oneFieldD
        ((0 : ℤ), (0 : ℤ), (0 : ℤ)) 0 = false ∧
    doStreaming velD invD cvD feqD csnD collideD zeroDistD oneFieldD oneFieldD
        flagD ((0 : ℤ), (0 : ℤ), (0 : ℤ)) (invD 0) = -1 ∧
    collideD (neighbouring_fi_cell velD ((0 : ℤ), (0 : ℤ), (0 : ℤ)) (invD 0))
        (invD 0) = 1 := by
  with_unfolding_all decide

/-- C1 witness: the amended rule applied to the concrete model at the origin
and direction `0`. -/
theorem doStreaming_interface_reconstruction_rule_witness :
    doStreaming velD invD cvD feqD csnD collideD zeroDistD oneFieldD oneFieldD
        flagD ((0 : ℤ), (0 : ℤ), (0 : ℤ)) (invD 0) =
      if cellTrigger velD csnD collideD oneFieldD flagD oneFieldD
          ((0 : ℤ), (0 : ℤ), (0 : ℤ)) 0 = true then
        reconstructedValue invD cvD feqD collideD oneFieldD
          ((0 : ℤ), (0 : ℤ), (0 : ℤ)) 0
      else
        collideD (neighbouring_fi_cell velD ((0 : ℤ), (0 : ℤ), (0 : ℤ)) (invD 0))
          (invD 0) :=
  doStreaming_interface_reconstruction_rule velD invD cvD feqD csnD collideD
    zeroDistD oneFieldD oneFieldD flagD ((0 : ℤ), (0 : ℤ), (0 : ℤ)) 0 (by with_unfolding_all decide)
    (by with_unfolding_all decide)

/-- C6 witness: pure data motion at the FLUID cell `(2,0,0)` of the concrete
model, direction `0`. -/
theorem doStreaming_pure_data_motion_witness :
    doStreaming velD invD cvD feqD csnD collideD zeroDistD oneFieldD oneFieldD
        flagD ((2 : ℤ), (0 : ℤ), (0 : ℤ)) 0 =
      collideD (neighbouring_fi_cell velD ((2 : ℤ), (0 : ℤ), (0 : ℤ)) 0) 0 :=
  doStreaming_pure_data_motion velD invD cvD feqD csnD collideD zeroDistD
    oneFieldD oneFieldD flagD ((2 : ℤ), (0 : ℤ), (0 : ℤ)) 0 (by with_unfolding_all decide)
    (Or.inl (by with_unfolding_all decide)) (by with_unfolding_all decide)

/-- C7 witness: the reconstruction balance at the INTERFACE origin cell of the
concrete model, trigger direction `0`. -/
theorem doStreaming_reconstruction_balance_witness :
    doStreaming velD invD cvD feqD csnD collideD zeroDistD oneFieldD oneFieldD
        flagD ((0 : ℤ), (0 : ℤ), (0 : ℤ)) (invD 0) =
      feqD 1 (cvD (fun j => collideD ((0 : ℤ), (0 : ℤ), (0 : ℤ)) j)
          (oneFieldD ((0 : ℤ), (0 : ℤ), (0 : ℤ)))) (invD 0) +
        feqD 1 (cvD (fun j => collideD ((0 : ℤ), (0 : ℤ), (0 : ℤ)) j)
          (oneFieldD ((0 : ℤ), (0 : ℤ), (0 : ℤ)))) 0 -
        collideD ((0 : ℤ), (0 : ℤ), (0 : ℤ)) 0 :=
  doStreaming_reconstruction_balance velD invD cvD feqD csnD collideD zeroDistD
    oneFieldD oneFieldD flagD ((0 : ℤ), (0 : ℤ), (0 : ℤ)) 0 (by with_unfolding_all decide)
    (by with_unfolding_all decide) (by with_unfolding_all decide)

/-- C8 counterexample: in the concrete model with `collideD8`, at the INTERFACE
origin cell, direction `1` streams the negative value `-1` and its slot IS
overwritten by reconstruction (the trigger for `invD 1 = 0` fires), so the
claim exempts it from the check — yet the source's assert (`streaming.cpp`
line 30) covers it and fails, while every value covered by the claim's reading
is non-negative. -/
theorem streaming_assert_coverage_cex :
    ¬ streamingAssertHolds velD flagD collideD8 ((0 : ℤ), (0 : ℤ), (0 : ℤ)) ∧
    claimedAssertHolds velD invD csnD collideD8 oneFieldD flagD oneFieldD
        ((0 : ℤ), (0 : ℤ), (0 : ℤ)) ∧
    cellTrigger velD csnD collideD8 oneFieldD flagD oneFieldD
        ((0 : ℤ), (0 : ℤ), (0 : ℤ)) (invD 1) = true := by
  refine ⟨?_, ?_, ?_⟩
  · unfold streamingAssertHolds
    with_unfolding_all decide
  · unfold claimedAssertHolds
    with_unfolding_all decide
  · with_unfolding_all decide

/-- C8 witness: with the all-ones collide field the per-cell assert holds at
the origin, and the non-reconstructed direction `0` of the INTERFACE origin
cell streams a non-negative value. -/
theorem doStreaming_nonneg_of_assert_witness :
    0 ≤ doStreaming velD invD cvD feqD csnD collideD zeroDistD oneFieldD
        oneFieldD flagD ((0 : ℤ), (0 : ℤ), (0 : ℤ)) 0 :=
  doStreaming_nonneg_of_assert velD invD cvD feqD csnD collideD zeroDistD
    oneFieldD oneFieldD flagD ((0 : ℤ), (0 : ℤ), (0 : ℤ)) 0 (by with_unfolding_all decide)
    (by unfold streamingAssertHolds; with_unfolding_all decide) (Or.inr (by with_unfolding_all decide)) (by with_unfolding_all decide)

end Streaming

namespace TimeStepAdapter

section
variable {Q : ℕ} (computeVelocity : (Fin Q → ℚ) → ℚ → ℚ × ℚ × ℚ) (sqrtFn : ℚ → ℚ)
  (cs : ℚ) (computeFeq : ℚ → ℚ × ℚ × ℚ → Fin Q → ℚ)
  (computeStressTensor : (Fin Q → ℚ) → (Fin Q → ℚ) → ℚ)
  (computeLocalRelaxationTime : ℚ → ℚ → ℚ → ℚ)
  (cells : List (LBCell Q)) (gravitation : ℚ × ℚ × ℚ)
  (oldTimeStep oldTau smagorinskyConstant : ℚ) (allowIncrease : Bool)

/-- C5: the decision rule of `adaptTimestep`, with
`criticalVelocity = 0.5 · C_S²` and safety factor `multiplier = 0.8`: if the
maximum velocity norm over FLUID/INTERFACE cells exceeds
`criticalVelocity / multiplier`, the candidate time step is
`oldTimeStep * multiplier`; otherwise, if it is below
`criticalVelocity * multiplier` and an increase is allowed, the candidate is
`oldTimeStep / multiplier`; otherwise the call returns `(oldTau, oldTimeStep)`
and mutates nothing. -/
theorem adaptTimestep_decision_rule :
    (maximumVelocityNorm computeVelocity sqrtFn cells > upperLimit cs →
      candidateTimeStep cs (maximumVelocityNorm computeVelocity sqrtFn cells)
          oldTimeStep allowIncrease =
        some (oldTimeStep * multiplier)) ∧
    (¬ maximumVelocityNorm computeVelocity sqrtFn cells > upperLimit cs →
      maximumVelocityNorm computeVelocity sqrtFn cells < lowerLimit cs →
      allowIncrease = true →
      candidateTimeStep cs (maximumVelocityNorm computeVelocity sqrtFn cells)
          oldTimeStep allowIncrease =
        some (oldTimeStep / multiplier)) ∧
    (¬ maximumVelocityNorm computeVelocity sqrtFn cells > upperLimit cs →
      ¬ (maximumVelocityNorm computeVelocity sqrtFn cells < lowerLimit cs ∧
        allowIncrease = true) →
      adaptTimestep computeVelocity sqrtFn cs computeFeq computeStressTensor
          computeLocalRelaxationTime cells gravitation oldTimeStep oldTau
          smagorinskyConstant allowIncrease =
        ((oldTau, oldTimeStep), cells, gravitation)) := by
  refine ⟨fun h => ?_, fun h1 h2 h3 => ?_, fun h1 h2 => ?_⟩
  · unfold candidateTimeStep
    rw [if_pos h]
  · unfold candidateTimeStep
    rw [if_neg h1, if_pos ⟨h2, h3⟩]
  · have hc : candidateTimeStep cs (maximumVelocityNorm computeVelocity sqrtFn
        cells) oldTimeStep allowIncrease = none := by
      unfold candidateTimeStep
      rw [if_neg h1, if_neg h2]
    unfold adaptTimestep
    rw [hc]

/-- C4: whenever the decision step produces a candidate time step whose derived
`newTau` does not exceed the stability floor `minimumTau`, `adaptTimestep`
refuses the change: it returns exactly `(oldTau, oldTimeStep)` and leaves the
cells (distributions, density, mass, flags) and the gravitation vector entirely
unchanged. -/
theorem adaptTimestep_refusal (ts : ℚ)
    (hc : candidateTimeStep cs (maximumVelocityNorm computeVelocity sqrtFn cells)
      oldTimeStep allowIncrease = some ts)
    (hτ : ts / oldTimeStep * (oldTau - 1 / 2) + 1 / 2 ≤
      minimumTau smagorinskyConstant) :
    adaptTimestep computeVelocity sqrtFn cs computeFeq computeStressTensor
        computeLocalRelaxationTime cells gravitation oldTimeStep oldTau
        smagorinskyConstant allowIncrease =
      ((oldTau, oldTimeStep), cells, gravitation) := by
  unfold adaptTimestep
  rw [hc]
  simp only []
  rw [if_pos hτ]

end

/-- C5 witness: with `C_S = 1` the band is `[2/5, 5/8]`; a single FLUID cell of
velocity norm `1/4` with growth disallowed lands in the no-change branch, and
the call returns the old pair with cells and gravitation untouched. -/
theorem adaptTimestep_decision_rule_witness :
    adaptTimestep cvMid sqrtId 1 feqOne cstZero clrtId bandCells
        ((1 : ℚ), (2 : ℚ), (3 : ℚ)) 1 (3 / 5) 0 false =
      (((3 / 5 : ℚ), (1 : ℚ)), bandCells, ((1 : ℚ), (2 : ℚ), (3 : ℚ))) :=
  (adaptTimestep_decision_rule cvMid sqrtId 1 feqOne cstZero clrtId bandCells
    ((1 : ℚ), (2 : ℚ), (3 : ℚ)) 1 (3 / 5) 0 false).2.2
    (by with_unfolding_all decide) (by with_unfolding_all decide)

/-- C4 witness: with no FLUID/INTERFACE cells and `oldTau = 1/2`, the zero
maximum velocity triggers a grow candidate `5/4` whose `newTau = 1/2` is below
the floor `1/1.99`, so the call is refused with everything unchanged. -/
theorem adaptTimestep_refusal_witness :
    candidateTimeStep 1 (maximumVelocityNorm cv1 sqrtId emptyCells) 1 true =
      some (5 / 4) ∧
    adaptTimestep cv1 sqrtId 1 feqOne cstZero clrtId emptyCells
        ((1 : ℚ), (2 : ℚ), (3 : ℚ)) 1 (1 / 2) 0 true =
      (((1 / 2 : ℚ), (1 : ℚ)), emptyCells, ((1 : ℚ), (2 : ℚ), (3 : ℚ))) :=
  ⟨by with_unfolding_all decide,
    adaptTimestep_refusal cv1 sqrtId 1 feqOne cstZero clrtId emptyCells
      ((1 : ℚ), (2 : ℚ), (3 : ℚ)) 1 (1 / 2) 0 true (5 / 4)
      (by with_unfolding_all decide) (by with_unfolding_all decide)⟩

/-- C2: evaluation showing the rescale does NOT preserve
`sum(density over FLUID) + sum(mass over INTERFACE)`.  A single FLUID cell of
density `2` with an accepted grow (`timeRatio = 5/4`, returned pair
`(9/8, 5/4)`) ends with total `19/8` instead of `2` — a relative change of
`3/16`, far beyond any rounding tolerance: the reference value on
`timeStep.cpp` line 76 is `totalFluidVolume / totalMass`, the reciprocal of the
mean density, so densities are pulled toward `1/2` rather than kept centred on
their mean `2`. -/
theorem adaptTimestep_total_mass_not_conserved :
    totalMass fluidCells2 = 2 ∧
    (adaptTimestep cv1 sqrtId 1 feqOne cstZero clrtId fluidCells2
        ((0 : ℚ), (0 : ℚ), (0 : ℚ)) 1 1 0 true).1 = ((9 / 8 : ℚ), (5 / 4 : ℚ)) ∧
    totalMass (adaptTimestep cv1 sqrtId 1 feqOne cstZero clrtId fluidCells2
        ((0 : ℚ), (0 : ℚ), (0 : ℚ)) 1 1 0 true).2.1 = 19 / 8 := by
  refine ⟨by with_unfolding_all decide, by with_unfolding_all decide,
    by with_unfolding_all decide⟩

/-- C3 counterexample: for the INTERFACE cell of density `2` and mass `1`,
rescaled with `timeRatio = 5/4` and `medianDensity = 1/2` (so the new density
is `19/8`), the volume fraction `mass / density` changes from `1/2` to
`128/361`: the mass factor `oldDensity / newDensity` of `timeStep.cpp` line 128
does NOT keep `mass / density` invariant. -/
theorem rescaleCell_volume_fraction_cex :
    (rescaleCell cv1 feqOne cstZero clrtId (5 / 4) (1 / 2) (9 / 8) 1 0
          interCell).mass /
        (rescaleCell cv1 feqOne cstZero clrtId (5 / 4) (1 / 2) (9 / 8) 1 0
          interCell).density ≠
      interCell.mass / interCell.density := by
  with_unfolding_all decide

/-- C3 (amended): for an INTERFACE cell with positive old density and positive
new density, rescaling the mass by `oldDensity / newDensity` leaves the PRODUCT
`mass * density` unchanged — `newMass * newDensity = oldMass * oldDensity` —
while the volume fraction `mass / density` is multiplied by
`(oldDensity / newDensity)²`. -/
theorem rescaleCell_mass_density_product {Q : ℕ}
    (computeVelocity : (Fin Q → ℚ) → ℚ → ℚ × ℚ × ℚ)
    (computeFeq : ℚ → ℚ × ℚ × ℚ → Fin Q → ℚ)
    (computeStressTensor : (Fin Q → ℚ) → (Fin Q → ℚ) → ℚ)
    (computeLocalRelaxationTime : ℚ → ℚ → ℚ → ℚ)
    (timeFactor medianDensity newTau oldTau smagorinskyConstant : ℚ)
    (c : LBCell Q) (hflag : c.flag = INTERFACE) (hold : 0 < c.density)
    (hnew : 0 < timeFactor * (c.density - medianDensity) + medianDensity) :
    (rescaleCell computeVelocity computeFeq computeStressTensor
          computeLocalRelaxationTime timeFactor medianDensity newTau oldTau
          smagorinskyConstant c).mass *
        (rescaleCell computeVelocity computeFeq computeStressTensor
          computeLocalRelaxationTime timeFactor medianDensity newTau oldTau
          smagorinskyConstant c).density =
      c.mass * c.density := by
  have hne : timeFactor * (c.density - medianDensity) + medianDensity ≠ 0 :=
    ne_of_gt hnew
  unfold rescaleCell
  rw [if_pos (Or.inr hflag)]
  simp only [hflag, if_pos rfl, if_true]
  rw [mul_assoc, div_mul_cancel₀ _ hne]

/-- C3 witness: the product invariance at the concrete INTERFACE cell. -/
theorem rescaleCell_mass_density_product_witness :
    (rescaleCell cv1 feqOne cstZero clrtId (5 / 4) (1 / 2) (9 / 8) 1 0
          interCell).mass *
        (rescaleCell cv1 feqOne cstZero clrtId (5 / 4) (1 / 2) (9 / 8) 1 0
          interCell).density =
      interCell.mass * interCell.density :=
  rescaleCell_mass_density_product cv1 feqOne cstZero clrtId (5 / 4) (1 / 2)
    (9 / 8) 1 0 interCell rfl (by with_unfolding_all decide)
    (by with_unfolding_all decide)

/-- C9: evaluation showing the per-cell rescale performs the division
`newFeq[j] / oldFeq[j]` with no guard on a vanishing denominator: at a FLUID
cell of density `0` (with `feqDensity`, the equilibrium that vanishes at zero
density, as the physical one does) the old equilibrium is `0`, yet the rescale
proceeds and writes a value — in the exact embedding the total division yields
`0`; in the C++ the same input silently produces `±Inf`/`NaN` in the rescaled
distributions.  No diagnostic or abort path exists in `adaptTimestep`. -/
theorem rescaleCell_zero_feq_unchecked :
    feqDensity zeroDensityCell.density
        (cv1 zeroDensityCell.dist zeroDensityCell.density) 0 = 0 ∧
    (rescaleCell cv1 feqDensity cstZero clrtId (5 / 4) (1 / 2) (9 / 8) 1 0
        zeroDensityCell).density = -(1 / 8) ∧
    (rescaleCell cv1 feqDensity cstZero clrtId (5 / 4) (1 / 2) (9 / 8) 1 0
        zeroDensityCell).dist 0 = 0 := by
  refine ⟨by with_unfolding_all decide, by with_unfolding_all decide,
    by with_unfolding_all decide⟩

/-- C10: on a grid with no FLUID and no INTERFACE cells and growth allowed, the
maximum velocity norm is `0`, the grow candidate passes the stability floor
(the returned pair is `(9/8, 5/4)`, not the old `(1, 1)`, so the only remaining
path — the rescale branch computing
`medianDensity = totalFluidVolume / totalMass` on `timeStep.cpp` line 76 — was
taken), and both reductions are `0`: the division is `0 / 0`, unguarded by any
check that a FLUID/INTERFACE cell exists. -/
theorem adaptTimestep_zero_total_mass_division :
    totalMass noFluidCells = 0 ∧
    totalFluidVolume noFluidCells = 0 ∧
    (adaptTimestep cv1 sqrtId 1 feqOne cstZero clrtId noFluidCells
        ((0 : ℚ), (0 : ℚ), (0 : ℚ)) 1 1 0 true).1 = ((9 / 8 : ℚ), (5 / 4 : ℚ)) := by
  refine ⟨by with_unfolding_all decide, by with_unfolding_all decide,
    by with_unfolding_all decide⟩

end TimeStepAdapter
